import Mathlib

/-!
A shallow embedding of `tunnel_monitor.py` (the VS Code tunnel monitor) in
Lean 4, together with theorems settling the specification claims about its
status-polling and recovery state machine.

External effects (the `code` CLI subprocess, `time.sleep`, logging, the tray
icon) are modelled as explicit inputs and recorded outputs: each tick of the
monitoring loop receives the outcome of its subprocess invocations as data,
and returns the state updates together with the icon events emitted, whether
a restart command was issued, and the total time slept.
-/

namespace TunnelMonitor

/-- Configuration constants from the top of `tunnel_monitor.py`. -/
def CHECK_INTERVAL : Nat := 30

/-- `RETRY_DELAY = 10` seconds. -/
def RETRY_DELAY : Nat := 10

/-- `MAX_RETRIES = 3`. -/
def MAX_RETRIES : Nat := 3

/-- The `time.sleep(5)` settle delay inside `restart_tunnel`. -/
def SETTLE_DELAY : Nat := 5

/-- A parsed JSON value as far as the monitor inspects it: objects
(association lists of string keys) and strings are distinguished; every
other JSON value (null, numbers, booleans, arrays) is collapsed into
`other`, since the code only ever compares values against the string
literal `"Connected"` and calls `.get` on values it expects to be dicts. -/
inductive Json where
  | obj (kvs : List (String × Json)) : Json
  | str (s : String) : Json
  | other : Json

/-- Outcome of the `subprocess.run([CODE_CLI, 'tunnel', 'status'], ...)`
invocation inside `check_tunnel_status`, as the Python code observes it:
the process may time out (`subprocess.TimeoutExpired`), the invocation may
fail with some other exception, or it completes with a return code and an
stdout that either parses as JSON or raises `json.JSONDecodeError`. -/
inductive ProbeInput where
  | timeout : ProbeInput
  | invocationError : ProbeInput
  | exited (returncode : Int) (stdout : Option Json) : ProbeInput

/-- Outcome of the `subprocess.run([CODE_CLI, 'tunnel', 'service',
'restart'], ...)` invocation inside `restart_tunnel`. -/
inductive RestartInput where
  | timeout : RestartInput
  | invocationError : RestartInput
  | exited (returncode : Int) : RestartInput

/-- The mutable attributes of the `TunnelMonitor` object that the claims
concern (`is_running`, `tunnel_connected`, `tunnel_name`,
`last_check_time`).  `tunnel_name` holds whatever object the parsed JSON
supplied, hence `Json` rather than `String`; `last_check_time` is
`datetime.now()` modelled as a `Nat` timestamp, `none` before the first
successful probe. -/
structure MonitorState where
  is_running : Bool
  tunnel_connected : Bool
  tunnel_name : Json
  last_check_time : Option Nat

/-- `TunnelMonitor.__init__`. -/
def initState : MonitorState :=
  { is_running := false
    tunnel_connected := false
    tunnel_name := Json.str "Unknown"
    last_check_time := none }

/-- Python `value == 'Connected'`: true exactly when the value is the
string literal `"Connected"` (`None`, non-strings and other strings all
compare unequal). -/
def eqConnectedLiteral : Option Json → Bool
  | some (Json.str s) => s = "Connected"
  | _ => false

/-- Python `d.get(k, default)` on a value expected to be a dict: returns
`none` when the receiver is not a dict (the `AttributeError` case, caught
by the generic `except Exception` handler), otherwise the value under the
key or the default. -/
def dictGet (j : Json) (key : String) (default : Json) : Option Json :=
  match j with
  | Json.obj kvs => some ((kvs.lookup key).getD default)
  | _ => none

/-- Python `d.get(k)` (default `None`) on a value expected to be a dict:
`none` when the receiver is not a dict (`AttributeError`), otherwise
`some (value or None)`, with Python `None` modelled as `Option Json`'s
inner `none`. -/
def dictGetOpt (j : Json) (key : String) : Option (Option Json) :=
  match j with
  | Json.obj kvs => some (kvs.lookup key)
  | _ => none

/-- `TunnelMonitor.check_tunnel_status`, lines 58-102.  Returns the updated
object state and the boolean the method returns.  `now` stands for
`datetime.now()`.  Every exception path of the Python code (timeout, other
invocation fault, non-zero exit, `json.JSONDecodeError`, and the
`AttributeError` raised by `.get` on a non-dict) ends in the corresponding
`except` clause, which sets `tunnel_connected = False` and returns
`False`, touching neither `tunnel_name` nor `last_check_time`. -/
def check_tunnel_status (now : Nat) (input : ProbeInput) (s : MonitorState) :
    MonitorState × Bool :=
  match input with
  | ProbeInput.timeout => ({ s with tunnel_connected := false }, false)
  | ProbeInput.invocationError => ({ s with tunnel_connected := false }, false)
  | ProbeInput.exited returncode stdout =>
    if returncode = 0 then
      match stdout with
      | none => ({ s with tunnel_connected := false }, false)
      | some status_data =>
        match dictGet status_data "tunnel" (Json.obj []) with
        | none => ({ s with tunnel_connected := false }, false)
        | some tunnel_info =>
          match dictGetOpt tunnel_info "tunnel" with
          | none => ({ s with tunnel_connected := false }, false)
          | some connVal =>
            match dictGet tunnel_info "name" (Json.str "Unknown") with
            | none => ({ s with tunnel_connected := false }, false)
            | some nameVal =>
              let is_connected := eqConnectedLiteral connVal
              (({ s with tunnel_connected := is_connected
                         tunnel_name := nameVal
                         last_check_time := some now }), is_connected)
    else
      ({ s with tunnel_connected := false }, false)

/-- The boolean `check_tunnel_status` returns, which depends only on the
subprocess outcome, never on the prior object state. -/
def probeConnected (input : ProbeInput) : Bool :=
  match input with
  | ProbeInput.exited rc (some j) =>
    if rc = 0 then
      match dictGet j "tunnel" (Json.obj []) with
      | some tunnel_info =>
        match dictGetOpt tunnel_info "tunnel" with
        | some connVal => eqConnectedLiteral connVal
        | none => false
      | none => false
    else false
  | _ => false

/-- Whether the probe reaches the success path (lines 76-78 of the source:
return code 0, stdout parses as JSON, and both `.get` calls succeed
without `AttributeError`), i.e. the path on which `tunnel_name` and
`last_check_time` are written. -/
def probeOk (input : ProbeInput) : Bool :=
  match input with
  | ProbeInput.exited rc (some j) =>
    if rc = 0 then
      match dictGet j "tunnel" (Json.obj []) with
      | some (Json.obj _) => true
      | _ => false
    else false
  | _ => false

/-- The name `check_tunnel_status` stores on its success path:
`tunnel_info.get('name', 'Unknown')`.  Arbitrary when `probeOk` is false
(the attribute is not written then). -/
def probeName (input : ProbeInput) : Json :=
  match input with
  | ProbeInput.exited rc (some j) =>
    if rc = 0 then
      match dictGet j "tunnel" (Json.obj []) with
      | some tunnel_info =>
        match dictGet tunnel_info "name" (Json.str "Unknown") with
        | some nameVal => nameVal
        | none => Json.other
      | none => Json.other
    else Json.other
  | _ => Json.other

/-- Result of `TunnelMonitor.restart_tunnel`: updated state, the returned
boolean, whether the follow-up `check_tunnel_status` probe was performed,
and the time slept inside the call. -/
structure RestartResult where
  state : MonitorState
  succeeded : Bool
  probed : Bool
  slept : Nat

/-- `TunnelMonitor.restart_tunnel`, lines 104-128.  A non-zero exit, a
timeout, or any other invocation error returns `False` immediately with no
probe; a zero exit sleeps the 5-second settle delay and returns whatever
`check_tunnel_status` returns. -/
def restart_tunnel (rin : RestartInput) (now : Nat) (pin : ProbeInput)
    (s : MonitorState) : RestartResult :=
  match rin with
  | RestartInput.timeout =>
    { state := s, succeeded := false, probed := false, slept := 0 }
  | RestartInput.invocationError =>
    { state := s, succeeded := false, probed := false, slept := 0 }
  | RestartInput.exited returncode =>
    if returncode = 0 then
      let r := check_tunnel_status now pin s
      { state := r.1, succeeded := r.2, probed := true, slept := SETTLE_DELAY }
    else
      { state := s, succeeded := false, probed := false, slept := 0 }

/-- The boolean `restart_tunnel` returns, which depends only on the two
subprocess outcomes: the restart command must exit 0 and the follow-up
probe must report connected. -/
def recoverySucceeds (rin : RestartInput) (pin : ProbeInput) : Bool :=
  match rin with
  | RestartInput.exited rc => if rc = 0 then probeConnected pin else false
  | _ => false

/-- The external inputs consumed by one iteration of `monitoring_loop`.
`normal` carries the status-probe outcome and, should the recovery branch
run, the restart-command outcome and the follow-up probe outcome.
`raiseAtIconUpdate` models the only uncaught exception source inside the
loop body: the `update_icon` call (the two subprocess helpers swallow
their own exceptions), which the `except Exception` handler at line 158
catches before sleeping `CHECK_INTERVAL`.  In the connected branch the
exception strikes after `retry_count = 0` (line 139 precedes line 140); in
the disconnected branch it strikes before the retry logic (line 142). -/
inductive TickInput where
  | normal (probe : ProbeInput) (now : Nat)
      (restart : RestartInput) (restartNow : Nat)
      (restartProbe : ProbeInput) : TickInput
  | raiseAtIconUpdate (probe : ProbeInput) (now : Nat) : TickInput

/-- Everything one loop iteration produces: the new object state, the new
value of the loop-local `retry_count`, the icon colors passed to
`update_icon`, whether the restart command was issued, whether the probe
reported connected, whether a recovery attempt reported success, and the
total time slept before the next iteration's probe. -/
structure TickResult where
  state : MonitorState
  retry_count : Nat
  icon_events : List String
  restart_attempted : Bool
  probe_connected : Bool
  recovery_succeeded : Bool
  slept : Nat

/-- One iteration of the `while` body of `TunnelMonitor.monitoring_loop`,
lines 134-160, with `retry_count` the loop-local counter. -/
def monitoring_tick (i : TickInput) (s : MonitorState) (retry_count : Nat) :
    TickResult :=
  match i with
  | TickInput.normal probe now restart restartNow restartProbe =>
    let c := check_tunnel_status now probe s
    if c.2 then
      { state := c.1, retry_count := 0, icon_events := ["green"]
        restart_attempted := false, probe_connected := true
        recovery_succeeded := false, slept := CHECK_INTERVAL }
    else
      if retry_count < MAX_RETRIES then
        let r := restart_tunnel restart restartNow restartProbe c.1
        if r.succeeded then
          { state := r.state, retry_count := 0, icon_events := ["red"]
            restart_attempted := true, probe_connected := false
            recovery_succeeded := true, slept := r.slept + CHECK_INTERVAL }
        else
          { state := r.state, retry_count := retry_count + 1
            icon_events := ["red"], restart_attempted := true
            probe_connected := false, recovery_succeeded := false
            slept := r.slept + RETRY_DELAY + CHECK_INTERVAL }
      else
        { state := c.1, retry_count := retry_count, icon_events := ["red"]
          restart_attempted := false, probe_connected := false
          recovery_succeeded := false
          slept := CHECK_INTERVAL + CHECK_INTERVAL }
  | TickInput.raiseAtIconUpdate probe now =>
    let c := check_tunnel_status now probe s
    { state := c.1, retry_count := if c.2 then 0 else retry_count
      icon_events := [], restart_attempted := false
      probe_connected := c.2, recovery_succeeded := false
      slept := CHECK_INTERVAL }

/-- `TunnelMonitor.monitoring_loop` run against a finite trace of tick
inputs: the `while self.is_running` guard is re-read before each
iteration, so the loop stops as soon as the flag is false and otherwise
consumes the next input.  Returns the final object state and the final
loop-local `retry_count`. -/
def monitoring_loop (inputs : List TickInput) (s : MonitorState)
    (retry_count : Nat) : MonitorState × Nat :=
  match inputs with
  | [] => (s, retry_count)
  | i :: rest =>
    if s.is_running then
      let r := monitoring_tick i s retry_count
      monitoring_loop rest r.state r.retry_count
    else
      (s, retry_count)

/-- `TunnelMonitor.on_restart`, lines 188-197: the manual "Restart Tunnel"
menu handler spawns a thread that calls `restart_tunnel` and notifies.
The loop-local `retry_count` of `monitoring_loop` is not in scope here, so
the handler acts on a system state pairing the shared object state with
the loop's counter by leaving the counter untouched.  Returns the new
system state, the success boolean, and the notification text shown. -/
def on_restart (rin : RestartInput) (now : Nat) (pin : ProbeInput)
    (sys : MonitorState × Nat) : (MonitorState × Nat) × Bool × String :=
  let r := restart_tunnel rin now pin sys.1
  (((r.state, sys.2)), r.succeeded,
    if r.succeeded then "Tunnel restarted successfully"
    else "Failed to restart tunnel")

/-- `TunnelMonitor.on_quit`, lines 206-210: clears `is_running`. -/
def on_quit (s : MonitorState) : MonitorState :=
  { s with is_running := false }

/-- Python `str()` as far as `get_status_text` needs it: a string renders
as itself; rendering of non-string JSON values is abstracted. -/
def pyStr (j : Json) : String :=
  match j with
  | Json.str s => s
  | Json.obj _ => "<object>"
  | Json.other => "<value>"

/-- `TunnelMonitor.get_status_text`, lines 167-177, with the
`strftime` rendering of the timestamp abstracted to `toString`. -/
def get_status_text (s : MonitorState) : String :=
  let status :=
    if s.tunnel_connected then
      "✓ Connected\nTunnel: " ++ pyStr s.tunnel_name
    else
      "✗ Disconnected"
  match s.last_check_time with
  | some t => status ++ "\nLast check: " ++ toString t
  | none => status

/-- A probe outcome whose JSON reports a connected tunnel named
"dev-box": exit code 0, stdout an object whose "tunnel" entry is an object
with "tunnel" set to "Connected" and "name" set to "dev-box". -/
def goodProbe : ProbeInput :=
  ProbeInput.exited 0 (some (Json.obj
    [("tunnel", Json.obj
      [("tunnel", Json.str "Connected"), ("name", Json.str "dev-box")])]))

/-- `initState` after `start()` set `is_running = True`. -/
def runningInit : MonitorState :=
  { initState with is_running := true }

/-- A tick on which the probe times out and, if recovery runs, the restart
command also times out. -/
def failTick : TickInput :=
  TickInput.normal ProbeInput.timeout 0 RestartInput.timeout 0
    ProbeInput.timeout

/-- A tick whose probe reports the connected "dev-box" tunnel. -/
def greenTick : TickInput :=
  TickInput.normal goodProbe 0 RestartInput.timeout 0 ProbeInput.timeout

/-! ### Helper lemmas -/

/-- Normal form of `check_tunnel_status`: the success path stores the
parsed connected flag, name and timestamp; every failure path only clears
`tunnel_connected`. -/
theorem check_tunnel_status_eq (now : Nat) (p : ProbeInput)
    (s : MonitorState) :
    check_tunnel_status now p s =
      if probeOk p then
        ({ s with tunnel_connected := probeConnected p
                  tunnel_name := probeName p
                  last_check_time := some now }, probeConnected p)
      else
        ({ s with tunnel_connected := false }, false) := by
  cases p with
  | timeout => rfl
  | invocationError => rfl
  | exited rc out =>
    by_cases hrc : rc = 0
    · subst hrc
      cases out with
      | none => simp [check_tunnel_status, probeOk]
      | some j =>
        cases j with
        | obj kvs =>
          simp only [check_tunnel_status, probeOk, probeConnected, probeName,
            dictGet, dictGetOpt, if_true]
          cases hti : (kvs.lookup "tunnel").getD (Json.obj []) with
          | obj tkvs => simp [hti]
          | str v => simp [hti]
          | other => simp [hti]
        | str v => simp [check_tunnel_status, probeOk, dictGet]
        | other => simp [check_tunnel_status, probeOk, dictGet]
    · cases out with
      | none => simp [check_tunnel_status, probeOk, hrc]
      | some j => simp [check_tunnel_status, probeOk, hrc]

/-- A probe that fails cannot report connected. -/
theorem probeOk_false_not_connected (p : ProbeInput)
    (h : probeOk p = false) : probeConnected p = false := by
  cases p with
  | timeout => rfl
  | invocationError => rfl
  | exited rc out =>
    by_cases hrc : rc = 0
    · subst hrc
      cases out with
      | none => rfl
      | some j =>
        cases j with
        | obj kvs =>
          simp only [probeOk, probeConnected, dictGet, dictGetOpt,
            if_true] at h ⊢
          cases hti : (kvs.lookup "tunnel").getD (Json.obj []) with
          | obj tkvs => simp [hti] at h
          | str v => simp [hti]
          | other => simp [hti]
        | str v => rfl
        | other => rfl
    · cases out with
      | none => rfl
      | some j => simp [probeConnected, hrc]

/-- Every failure path of `check_tunnel_status` sets `tunnel_connected` to
false and returns false, leaving every other attribute unchanged. -/
theorem check_tunnel_status_fail (now : Nat) (p : ProbeInput)
    (s : MonitorState) (h : probeOk p = false) :
    check_tunnel_status now p s =
      ({ s with tunnel_connected := false }, false) := by
  rw [check_tunnel_status_eq]
  simp [h]

/-- The success path of `check_tunnel_status`, spelled out. -/
theorem check_tunnel_status_ok (now : Nat) (p : ProbeInput)
    (s : MonitorState) (h : probeOk p = true) :
    check_tunnel_status now p s =
      ({ s with tunnel_connected := probeConnected p
                tunnel_name := probeName p
                last_check_time := some now }, probeConnected p) := by
  rw [check_tunnel_status_eq]
  simp [h]

/-- The boolean `check_tunnel_status` returns is `probeConnected` of the
subprocess outcome, independent of the prior state. -/
theorem check_tunnel_status_snd (now : Nat) (p : ProbeInput)
    (s : MonitorState) :
    (check_tunnel_status now p s).2 = probeConnected p := by
  rw [check_tunnel_status_eq]
  cases h : probeOk p with
  | false => simp [h, probeOk_false_not_connected p h]
  | true => simp [h]

/-- `check_tunnel_status` always stores the boolean it returns into
`tunnel_connected`. -/
theorem check_tunnel_status_connected (now : Nat) (p : ProbeInput)
    (s : MonitorState) :
    (check_tunnel_status now p s).1.tunnel_connected = probeConnected p := by
  rw [check_tunnel_status_eq]
  cases h : probeOk p with
  | false => simp [h, probeOk_false_not_connected p h]
  | true => simp [h]

/-- `check_tunnel_status` never touches `is_running`. -/
theorem check_tunnel_status_running (now : Nat) (p : ProbeInput)
    (s : MonitorState) :
    (check_tunnel_status now p s).1.is_running = s.is_running := by
  rw [check_tunnel_status_eq]
  cases h : probeOk p with
  | false => simp [h]
  | true => simp [h]

/-- A probe that reaches the success path stamps `last_check_time = now`. -/
theorem check_tunnel_status_stamp (now : Nat) (p : ProbeInput)
    (s : MonitorState) (h : probeOk p = true) :
    (check_tunnel_status now p s).1.last_check_time = some now := by
  rw [check_tunnel_status_ok now p s h]

/-- `restart_tunnel` returns `recoverySucceeds` of its two subprocess
outcomes, independent of the prior state. -/
theorem restart_tunnel_succeeded (rin : RestartInput) (now : Nat)
    (pin : ProbeInput) (s : MonitorState) :
    (restart_tunnel rin now pin s).succeeded = recoverySucceeds rin pin := by
  cases rin with
  | timeout => rfl
  | invocationError => rfl
  | exited rc =>
    simp only [restart_tunnel, recoverySucceeds]
    by_cases hrc : rc = 0
    · simp [hrc, check_tunnel_status_snd]
    · simp [hrc]

/-- `restart_tunnel` never touches `is_running`. -/
theorem restart_tunnel_running (rin : RestartInput) (now : Nat)
    (pin : ProbeInput) (s : MonitorState) :
    (restart_tunnel rin now pin s).state.is_running = s.is_running := by
  cases rin with
  | timeout => rfl
  | invocationError => rfl
  | exited rc =>
    simp only [restart_tunnel]
    by_cases hrc : rc = 0
    · simp [hrc, check_tunnel_status_running]
    · simp [hrc]

/-- On a successful recovery the follow-up probe has stored
`tunnel_connected = true`. -/
theorem restart_tunnel_success_connected (rin : RestartInput) (now : Nat)
    (pin : ProbeInput) (s : MonitorState)
    (h : (restart_tunnel rin now pin s).succeeded = true) :
    (restart_tunnel rin now pin s).state.tunnel_connected = true := by
  cases rin with
  | timeout => simp [restart_tunnel] at h
  | invocationError => simp [restart_tunnel] at h
  | exited rc =>
    simp only [restart_tunnel] at h ⊢
    by_cases hrc : rc = 0
    · simp only [hrc, if_true] at h ⊢
      rw [check_tunnel_status_connected, ← check_tunnel_status_snd now pin s, h]
    · simp [hrc] at h

/-- A tick never touches `is_running`: only `on_quit` clears it. -/
theorem monitoring_tick_running (i : TickInput) (s : MonitorState)
    (n : Nat) : (monitoring_tick i s n).state.is_running = s.is_running := by
  cases i with
  | normal probe now restart restartNow restartProbe =>
    simp only [monitoring_tick]
    split
    · exact check_tunnel_status_running now probe s
    · split
      · split
        · rw [restart_tunnel_running, check_tunnel_status_running]
        · rw [restart_tunnel_running, check_tunnel_status_running]
      · exact check_tunnel_status_running now probe s
  | raiseAtIconUpdate probe now =>
    exact check_tunnel_status_running now probe s

/-- The new value of the loop-local counter after one tick is either 0, the
old value, or the old value plus one, the latter only from the branch
guarded by `retry_count < MAX_RETRIES`. -/
theorem monitoring_tick_retry_cases (i : TickInput) (s : MonitorState)
    (n : Nat) :
    (monitoring_tick i s n).retry_count = 0 ∨
    (monitoring_tick i s n).retry_count = n ∨
    ((monitoring_tick i s n).retry_count = n + 1 ∧ n < MAX_RETRIES) := by
  cases i with
  | normal probe now rst rnow rp =>
    simp only [monitoring_tick]
    split
    · left; rfl
    · split
      · next hlt =>
        split
        · left; rfl
        · right; right; exact ⟨rfl, hlt⟩
      · right; left; rfl
  | raiseAtIconUpdate probe now =>
    simp only [monitoring_tick]
    split
    · left; rfl
    · right; left; rfl

/-- One tick keeps the counter within the retry budget. -/
theorem monitoring_tick_retry_le (i : TickInput) (s : MonitorState)
    (n : Nat) (h : n ≤ MAX_RETRIES) :
    (monitoring_tick i s n).retry_count ≤ MAX_RETRIES := by
  rcases monitoring_tick_retry_cases i s n with h0 | h0 | ⟨h0, hlt⟩ <;> omega

/-- The loop keeps the counter within the retry budget. -/
theorem monitoring_loop_retry_le (inputs : List TickInput) :
    ∀ (s : MonitorState) (n : Nat), n ≤ MAX_RETRIES →
      (monitoring_loop inputs s n).2 ≤ MAX_RETRIES := by
  induction inputs with
  | nil => intro s n h; exact h
  | cons i rest ih =>
    intro s n h
    simp only [monitoring_loop]
    split
    · exact ih _ _ (monitoring_tick_retry_le i s n h)
    · exact h

/-- A tick clears a nonzero counter only when its probe reported connected
or its recovery attempt reported success. -/
theorem monitoring_tick_reset_only_on_success (i : TickInput)
    (s : MonitorState) (n : Nat) (hn : n ≠ 0)
    (h : (monitoring_tick i s n).retry_count = 0) :
    (monitoring_tick i s n).probe_connected = true ∨
      (monitoring_tick i s n).recovery_succeeded = true := by
  cases i with
  | normal probe now rst rnow rp =>
    simp only [monitoring_tick] at h ⊢
    split at h
    · next hc => simp [hc]
    · next hc =>
      split at h
      · next hlt =>
        split at h
        · next hr => simp [hc, hlt, hr]
        · next hr => simp at h
      · next hlt => simp at h; omega
  | raiseAtIconUpdate probe now =>
    simp only [monitoring_tick] at h ⊢
    split at h
    · next hc => simp [hc]
    · next hc => omega

/-- Unfolding one running iteration of `monitoring_loop`. -/
theorem monitoring_loop_cons (i : TickInput) (rest : List TickInput)
    (s : MonitorState) (n : Nat) (h : s.is_running = true) :
    monitoring_loop (i :: rest) s n =
      monitoring_loop rest (monitoring_tick i s n).state
        (monitoring_tick i s n).retry_count := by
  simp [monitoring_loop, h]

/-- While `is_running` holds, the loop executes every tick of the trace:
it is the fold of `monitoring_tick` over the inputs. -/
theorem monitoring_loop_eq_foldl (inputs : List TickInput) :
    ∀ (s : MonitorState) (n : Nat), s.is_running = true →
      monitoring_loop inputs s n =
        inputs.foldl
          (fun p j => ((monitoring_tick j p.1 p.2).state,
            (monitoring_tick j p.1 p.2).retry_count)) (s, n) := by
  induction inputs with
  | nil => intro s n h; rfl
  | cons i rest ih =>
    intro s n h
    rw [monitoring_loop_cons i rest s n h, List.foldl_cons]
    exact ih _ _ (by rw [monitoring_tick_running]; exact h)

/-- A tick whose probe reports disconnected and whose recovery attempt
fails, taken below the retry budget, increments the counter. -/
theorem monitoring_tick_fail_increments (probe : ProbeInput) (now : Nat)
    (rst : RestartInput) (rnow : Nat) (rp : ProbeInput) (s : MonitorState)
    (n : Nat) (hp : probeConnected probe = false)
    (hr : recoverySucceeds rst rp = false) (hn : n < MAX_RETRIES) :
    (monitoring_tick (TickInput.normal probe now rst rnow rp) s n).retry_count
      = n + 1 := by
  simp [monitoring_tick, check_tunnel_status_snd, hp,
    restart_tunnel_succeeded, hr, hn]

/-- A tick whose probe reports disconnected while the counter sits at the
budget takes the exhausted branch: no restart, counter unchanged. -/
theorem monitoring_tick_exhausted (probe : ProbeInput) (now : Nat)
    (rst : RestartInput) (rnow : Nat) (rp : ProbeInput) (s : MonitorState)
    (hp : probeConnected probe = false) :
    (monitoring_tick (TickInput.normal probe now rst rnow rp) s
      MAX_RETRIES).restart_attempted = false ∧
    (monitoring_tick (TickInput.normal probe now rst rnow rp) s
      MAX_RETRIES).retry_count = MAX_RETRIES := by
  constructor <;> simp [monitoring_tick, check_tunnel_status_snd, hp]

/-! ### Claims -/

/-- C1, counterexample: on a tick whose probe finds the tunnel
disconnected with the retry counter at MAX_RETRIES, the exhausted branch
sleeps CHECK_INTERVAL at line 154 and then falls through to the
unconditional sleep at line 156, so the total time slept is 60, not the
claimed single CHECK_INTERVAL of 30. -/
theorem C1_counterexample :
    (monitoring_tick failTick runningInit MAX_RETRIES).slept =
        2 * CHECK_INTERVAL ∧
      ¬ (monitoring_tick failTick runningInit MAX_RETRIES).slept =
        CHECK_INTERVAL := by
  constructor
  · decide
  · decide

/-- C1 (amended): on a tick whose probe finds the tunnel disconnected and
whose retry counter has reached MAX_RETRIES, the total time slept before
the next tick's probe equals two CHECK_INTERVALs (60 time units): the
exhausted branch's own interval sleep plus the unconditional
end-of-iteration interval sleep. -/
theorem C1_exhausted_tick_sleeps_two_intervals (probe : ProbeInput)
    (now : Nat) (rst : RestartInput) (rnow : Nat) (rp : ProbeInput)
    (s : MonitorState) (n : Nat) (hp : probeConnected probe = false)
    (hn : ¬ n < MAX_RETRIES) :
    (monitoring_tick (TickInput.normal probe now rst rnow rp) s n).slept =
      2 * CHECK_INTERVAL := by
  simp [monitoring_tick, check_tunnel_status_snd, hp, hn, CHECK_INTERVAL]

/-- C1, witness: the amended statement at a concrete exhausted tick. -/
theorem C1_witness :
    probeConnected ProbeInput.timeout = false ∧
    ¬ MAX_RETRIES < MAX_RETRIES ∧
    (monitoring_tick failTick runningInit MAX_RETRIES).slept =
      2 * CHECK_INTERVAL :=
  ⟨rfl, by decide,
    C1_exhausted_tick_sleeps_two_intervals ProbeInput.timeout 0
      RestartInput.timeout 0 ProbeInput.timeout runningInit MAX_RETRIES rfl
      (by decide)⟩

/-- C2, counterexample: a manual restart trigger whose recovery attempt
reports success leaves the loop-local retry counter unchanged (here 2);
`retry_count` is a local variable of `monitoring_loop` that `on_restart`
cannot reach, so no reset to 0 happens. -/
theorem C2_counterexample :
    (on_restart (RestartInput.exited 0) 0 goodProbe
        (runningInit, 2)).2.1 = true ∧
      ¬ (on_restart (RestartInput.exited 0) 0 goodProbe
        (runningInit, 2)).1.2 = 0 := by
  constructor
  · decide
  · decide

/-- C2 (amended): a manual restart trigger never modifies the loop-local
retry counter, successful or not; a successful one stores
`tunnel_connected = true` in the shared state, so the counter is reset
only when a subsequent tick's probe observes the connected tunnel. -/
theorem C2_manual_restart_counter_frame (rin : RestartInput) (now : Nat)
    (pin : ProbeInput) (sys : MonitorState × Nat) :
    (on_restart rin now pin sys).1.2 = sys.2 ∧
    ((on_restart rin now pin sys).2.1 = true →
      (on_restart rin now pin sys).1.1.tunnel_connected = true) := by
  constructor
  · rfl
  · intro h
    exact restart_tunnel_success_connected rin now pin sys.1 h

/-- C2, witness: the amended statement at a concrete successful manual
restart fired while the loop's counter sits at 2. -/
theorem C2_witness :
    (on_restart (RestartInput.exited 0) 0 goodProbe
      (runningInit, 2)).1.2 = 2 ∧
    (on_restart (RestartInput.exited 0) 0 goodProbe
      (runningInit, 2)).1.1.tunnel_connected = true :=
  ⟨(C2_manual_restart_counter_frame (RestartInput.exited 0) 0 goodProbe
      (runningInit, 2)).1,
   (C2_manual_restart_counter_frame (RestartInput.exited 0) 0 goodProbe
      (runningInit, 2)).2 rfl⟩

/-- C3: from the initial counter 0, every trace of ticks keeps the retry
counter in [0, MAX_RETRIES]; a tick increments it only when it is strictly
below MAX_RETRIES, and clears a nonzero counter only when its probe
observed the tunnel connected or its recovery attempt succeeded. -/
theorem C3_retry_counter_invariant :
    (∀ (inputs : List TickInput) (s : MonitorState),
      (monitoring_loop inputs s 0).2 ≤ MAX_RETRIES) ∧
    (∀ (i : TickInput) (s : MonitorState) (n : Nat),
      ((monitoring_tick i s n).retry_count = n + 1 → n < MAX_RETRIES) ∧
      (n ≠ 0 → (monitoring_tick i s n).retry_count = 0 →
        (monitoring_tick i s n).probe_connected = true ∨
          (monitoring_tick i s n).recovery_succeeded = true)) := by
  refine ⟨fun inputs s => monitoring_loop_retry_le inputs s 0 (by decide),
    fun i s n => ⟨fun h => ?_, monitoring_tick_reset_only_on_success i s n⟩⟩
  rcases monitoring_tick_retry_cases i s n with h0 | h0 | ⟨h0, hlt⟩ <;> omega

/-- C3, witness: the invariant evaluated on concrete traces: a failing
tick raises the counter from 1 to 2 only because 1 < MAX_RETRIES, and a
connected probe clears a counter of 1. -/
theorem C3_witness :
    (monitoring_loop [failTick] runningInit 0).2 ≤ MAX_RETRIES ∧
    (1 : Nat) < MAX_RETRIES ∧
    ((monitoring_tick greenTick runningInit 1).probe_connected = true ∨
      (monitoring_tick greenTick runningInit 1).recovery_succeeded = true) :=
  ⟨C3_retry_counter_invariant.1 [failTick] runningInit,
   (C3_retry_counter_invariant.2 failTick runningInit 1).1 (by decide),
   (C3_retry_counter_invariant.2 greenTick runningInit 1).2 (by decide)
     (by decide)⟩

/-- C4: on any tick whose probe reports connected, whatever the prior
counter, the stored state becomes connected, the counter becomes 0, the
green icon event is emitted, and no restart command is issued. -/
theorem C4_connected_tick (probe : ProbeInput) (now : Nat)
    (rst : RestartInput) (rnow : Nat) (rp : ProbeInput) (s : MonitorState)
    (n : Nat) (h : probeConnected probe = true) :
    (monitoring_tick (TickInput.normal probe now rst rnow rp) s
        n).state.tunnel_connected = true ∧
    (monitoring_tick (TickInput.normal probe now rst rnow rp) s
        n).retry_count = 0 ∧
    (monitoring_tick (TickInput.normal probe now rst rnow rp) s
        n).icon_events = ["green"] ∧
    (monitoring_tick (TickInput.normal probe now rst rnow rp) s
        n).restart_attempted = false := by
  simp [monitoring_tick, check_tunnel_status_snd,
    check_tunnel_status_connected, h]

/-- C4, witness: a concrete connected probe observed while the counter
sits at 2. -/
theorem C4_witness :
    probeConnected goodProbe = true ∧
    (monitoring_tick greenTick initState 2).state.tunnel_connected = true ∧
    (monitoring_tick greenTick initState 2).retry_count = 0 ∧
    (monitoring_tick greenTick initState 2).icon_events = ["green"] ∧
    (monitoring_tick greenTick initState 2).restart_attempted = false :=
  ⟨by decide,
    C4_connected_tick goodProbe 0 RestartInput.timeout 0 ProbeInput.timeout
      initState 2 (by decide)⟩

/-- C5: three consecutive ticks with failed probe and failed recovery,
starting from counter 0, leave the counter at MAX_RETRIES; from then on,
any tick that again finds disconnection issues no restart command and
leaves the counter at MAX_RETRIES, until a connected probe or successful
recovery intervenes. -/
theorem C5_exhaustion (p1 p2 p3 : ProbeInput) (now1 now2 now3 : Nat)
    (r1 r2 r3 : RestartInput) (rn1 rn2 rn3 : Nat)
    (rp1 rp2 rp3 : ProbeInput) (s : MonitorState)
    (hrun : s.is_running = true)
    (hp1 : probeConnected p1 = false)
    (hr1 : recoverySucceeds r1 rp1 = false)
    (hp2 : probeConnected p2 = false)
    (hr2 : recoverySucceeds r2 rp2 = false)
    (hp3 : probeConnected p3 = false)
    (hr3 : recoverySucceeds r3 rp3 = false) :
    (monitoring_loop
      [TickInput.normal p1 now1 r1 rn1 rp1,
       TickInput.normal p2 now2 r2 rn2 rp2,
       TickInput.normal p3 now3 r3 rn3 rp3] s 0).2 = MAX_RETRIES ∧
    (∀ (p : ProbeInput) (now : Nat) (rst : RestartInput) (rnow : Nat)
       (rp : ProbeInput) (t : MonitorState), probeConnected p = false →
      (monitoring_tick (TickInput.normal p now rst rnow rp) t
          MAX_RETRIES).restart_attempted = false ∧
      (monitoring_tick (TickInput.normal p now rst rnow rp) t
          MAX_RETRIES).retry_count = MAX_RETRIES) := by
  constructor
  · have hrun1 : (monitoring_tick (TickInput.normal p1 now1 r1 rn1 rp1) s
        0).state.is_running = true := by
      rw [monitoring_tick_running]; exact hrun
    have hrun2 : (monitoring_tick (TickInput.normal p2 now2 r2 rn2 rp2)
        (monitoring_tick (TickInput.normal p1 now1 r1 rn1 rp1) s 0).state
        1).state.is_running = true := by
      rw [monitoring_tick_running]; exact hrun1
    rw [monitoring_loop_cons _ _ _ _ hrun,
      monitoring_tick_fail_increments p1 now1 r1 rn1 rp1 s 0 hp1 hr1
        (by decide)]
    rw [monitoring_loop_cons _ _ _ _ hrun1,
      monitoring_tick_fail_increments p2 now2 r2 rn2 rp2 _ 1 hp2 hr2
        (by decide)]
    rw [monitoring_loop_cons _ _ _ _ hrun2,
      monitoring_tick_fail_increments p3 now3 r3 rn3 rp3 _ 2 hp3 hr3
        (by decide)]
    rfl
  · intro p now rst rnow rp t hp
    exact monitoring_tick_exhausted p now rst rnow rp t hp

/-- C5, witness: three concrete failing ticks exhaust the budget and a
fourth disconnected tick skips recovery with the counter still at 3. -/
theorem C5_witness :
    (monitoring_loop [failTick, failTick, failTick] runningInit 0).2 =
      MAX_RETRIES ∧
    (monitoring_tick failTick runningInit
      MAX_RETRIES).restart_attempted = false ∧
    (monitoring_tick failTick runningInit MAX_RETRIES).retry_count =
      MAX_RETRIES := by
  have h := C5_exhaustion ProbeInput.timeout ProbeInput.timeout
    ProbeInput.timeout 0 0 0 RestartInput.timeout RestartInput.timeout
    RestartInput.timeout 0 0 0 ProbeInput.timeout ProbeInput.timeout
    ProbeInput.timeout runningInit rfl rfl rfl rfl rfl rfl rfl
  exact ⟨h.1, h.2 ProbeInput.timeout 0 RestartInput.timeout 0
    ProbeInput.timeout runningInit rfl⟩

/-- C6: `restart_tunnel` returns false immediately with no follow-up probe
when the restart command times out, fails to launch, or exits non-zero;
when it exits zero the function sleeps the 5-unit settle delay, probes
once, and returns that probe's connected value, which is false whenever
the probe fails. -/
theorem C6_restart_behaviour (rc : Int) (now : Nat) (pin : ProbeInput)
    (s : MonitorState) :
    (restart_tunnel RestartInput.timeout now pin s =
      { state := s, succeeded := false, probed := false, slept := 0 }) ∧
    (restart_tunnel RestartInput.invocationError now pin s =
      { state := s, succeeded := false, probed := false, slept := 0 }) ∧
    (rc ≠ 0 → restart_tunnel (RestartInput.exited rc) now pin s =
      { state := s, succeeded := false, probed := false, slept := 0 }) ∧
    (restart_tunnel (RestartInput.exited 0) now pin s =
      { state := (check_tunnel_status now pin s).1
        succeeded := probeConnected pin
        probed := true
        slept := SETTLE_DELAY }) ∧
    (probeOk pin = false → probeConnected pin = false) := by
  refine ⟨rfl, rfl, fun h => by simp [restart_tunnel, h], ?_,
    probeOk_false_not_connected pin⟩
  simp [restart_tunnel, check_tunnel_status_snd]

/-- C6, witness: a non-zero restart exit at a concrete state, and a
timed-out probe counting as not connected. -/
theorem C6_witness :
    restart_tunnel (RestartInput.exited 1) 0 ProbeInput.timeout
        runningInit =
      { state := runningInit, succeeded := false, probed := false
        slept := 0 } ∧
    probeConnected ProbeInput.timeout = false := by
  have h := C6_restart_behaviour 1 0 ProbeInput.timeout runningInit
  exact ⟨h.2.2.1 (by decide), h.2.2.2.2 rfl⟩

/-- C7: every probe failure kind (timeout, other invocation fault,
non-zero exit, unparseable stdout, or parseable stdout whose structure
makes a `.get` call raise) yields the same total result: connected is
false and the stored tunnel name, like every attribute other than
`tunnel_connected`, is left unchanged; no failure escapes the method. -/
theorem C7_probe_failures (now : Nat) (s : MonitorState) (rc : Int)
    (out : Option Json) (j : Json) :
    (check_tunnel_status now ProbeInput.timeout s =
      ({ s with tunnel_connected := false }, false)) ∧
    (check_tunnel_status now ProbeInput.invocationError s =
      ({ s with tunnel_connected := false }, false)) ∧
    (rc ≠ 0 → check_tunnel_status now (ProbeInput.exited rc out) s =
      ({ s with tunnel_connected := false }, false)) ∧
    (check_tunnel_status now (ProbeInput.exited 0 none) s =
      ({ s with tunnel_connected := false }, false)) ∧
    (probeOk (ProbeInput.exited 0 (some j)) = false →
      check_tunnel_status now (ProbeInput.exited 0 (some j)) s =
        ({ s with tunnel_connected := false }, false)) := by
  refine ⟨rfl, rfl, fun h => ?_, ?_, fun h =>
    check_tunnel_status_fail now _ s h⟩
  · apply check_tunnel_status_fail
    cases out with
    | none => rfl
    | some j2 => simp [probeOk, h]
  · apply check_tunnel_status_fail
    rfl

/-- C7, witness: a non-zero exit and a non-JSON-object stdout at concrete
states. -/
theorem C7_witness :
    check_tunnel_status 4 (ProbeInput.exited 1 none) runningInit =
      ({ runningInit with tunnel_connected := false }, false) ∧
    check_tunnel_status 4 (ProbeInput.exited 0 (some (Json.str "oops")))
        runningInit =
      ({ runningInit with tunnel_connected := false }, false) := by
  have h := C7_probe_failures 4 runningInit 1 none (Json.str "oops")
  exact ⟨h.2.2.1 (by decide), h.2.2.2.2 rfl⟩

/-- C8: on a zero-exit probe whose stdout parses as a JSON object, the
observation is connected exactly when the nested "tunnel" field of the
"tunnel" object equals the literal "Connected"; the name defaults to
"Unknown" when absent, and an output missing the nested object entirely
yields connected = false with name "Unknown" rather than an error. -/
theorem C8_parse (now : Nat) (s : MonitorState)
    (kvs tkvs : List (String × Json)) :
    (kvs.lookup "tunnel" = some (Json.obj tkvs) →
      check_tunnel_status now
          (ProbeInput.exited 0 (some (Json.obj kvs))) s =
        ({ s with
            tunnel_connected := eqConnectedLiteral (tkvs.lookup "tunnel")
            tunnel_name := (tkvs.lookup "name").getD (Json.str "Unknown")
            last_check_time := some now },
          eqConnectedLiteral (tkvs.lookup "tunnel"))) ∧
    (eqConnectedLiteral (tkvs.lookup "tunnel") = true ↔
      tkvs.lookup "tunnel" = some (Json.str "Connected")) ∧
    (kvs.lookup "tunnel" = none →
      check_tunnel_status now
          (ProbeInput.exited 0 (some (Json.obj kvs))) s =
        ({ s with tunnel_connected := false
                  tunnel_name := Json.str "Unknown"
                  last_check_time := some now }, false)) := by
  refine ⟨fun h => ?_, ?_, fun h => ?_⟩
  · simp [check_tunnel_status, dictGet, dictGetOpt, h]
  · cases hv : tkvs.lookup "tunnel" with
    | none => simp [eqConnectedLiteral]
    | some v =>
      cases v with
      | obj k => simp [eqConnectedLiteral]
      | str w => simp [eqConnectedLiteral]
      | other => simp [eqConnectedLiteral]
  · simp [check_tunnel_status, dictGet, dictGetOpt, h, eqConnectedLiteral]

/-- C8, witness: the connected "dev-box" output, and an empty JSON object
falling back to disconnected with name "Unknown". -/
theorem C8_witness :
    check_tunnel_status 7 goodProbe initState =
      ({ initState with tunnel_connected := true
                        tunnel_name := Json.str "dev-box"
                        last_check_time := some 7 }, true) ∧
    check_tunnel_status 7 (ProbeInput.exited 0 (some (Json.obj [])))
        initState =
      ({ initState with tunnel_connected := false
                        tunnel_name := Json.str "Unknown"
                        last_check_time := some 7 }, false) :=
  ⟨(C8_parse 7 initState
      [("tunnel", Json.obj
        [("tunnel", Json.str "Connected"), ("name", Json.str "dev-box")])]
      [("tunnel", Json.str "Connected"), ("name", Json.str "dev-box")]).1
      rfl,
   (C8_parse 7 initState [] []).2.2 rfl⟩

/-- C9: no in-tick error terminates the monitoring loop: a tick (including
one whose body raises and is caught by the handler at line 158) never
changes `is_running`, so while the flag holds the loop executes every tick
of its input trace; it returns as soon as the flag is false, and the flag
is cleared exactly by `on_quit`. -/
theorem C9_loop_never_terminates_on_error (inputs : List TickInput)
    (s : MonitorState) (n : Nat) (i : TickInput) :
    ((monitoring_tick i s n).state.is_running = s.is_running) ∧
    (s.is_running = true →
      monitoring_loop inputs s n =
        inputs.foldl
          (fun p j => ((monitoring_tick j p.1 p.2).state,
            (monitoring_tick j p.1 p.2).retry_count)) (s, n)) ∧
    (s.is_running = false → monitoring_loop inputs s n = (s, n)) ∧
    ((on_quit s).is_running = false) := by
  refine ⟨monitoring_tick_running i s n,
    monitoring_loop_eq_foldl inputs s n, fun h => ?_, rfl⟩
  cases inputs with
  | nil => rfl
  | cons i2 rest => simp [monitoring_loop, h]

/-- C9, witness: a running state processes a failing tick rather than
exiting, and a cleared flag stops the loop at once. -/
theorem C9_witness :
    monitoring_loop [failTick] runningInit 0 =
      [failTick].foldl
        (fun p j => ((monitoring_tick j p.1 p.2).state,
          (monitoring_tick j p.1 p.2).retry_count)) (runningInit, 0) ∧
    monitoring_loop [failTick] initState 0 = (initState, 0) :=
  ⟨(C9_loop_never_terminates_on_error [failTick] runningInit 0
      failTick).2.1 rfl,
   (C9_loop_never_terminates_on_error [failTick] initState 0
      failTick).2.2.1 rfl⟩

/-- C10: `last_check_time` is written only on the probe success path (exit
code 0 and parseable output); every probe failure leaves it unchanged, and
`get_status_text` appends exactly that stored timestamp, so the shown
last-check time reflects the most recent successfully parsed probe. -/
theorem C10_last_check_frame (now : Nat) (p : ProbeInput)
    (s : MonitorState) (t : Nat) :
    (probeOk p = false →
      (check_tunnel_status now p s).1.last_check_time =
        s.last_check_time) ∧
    (probeOk p = true →
      (check_tunnel_status now p s).1.last_check_time = some now) ∧
    (s.last_check_time = some t →
      get_status_text s =
        (if s.tunnel_connected then
          "✓ Connected\nTunnel: " ++ pyStr s.tunnel_name
         else "✗ Disconnected") ++ "\nLast check: " ++ toString t) := by
  refine ⟨fun h => ?_, fun h => check_tunnel_status_stamp now p s h,
    fun h => ?_⟩
  · rw [check_tunnel_status_fail now p s h]
  · simp [get_status_text, h]

/-- C10, witness: a timed-out probe leaves a previously stamped time
intact, a successful probe stamps the new time, and the status text shows
the stored stamp. -/
theorem C10_witness :
    (check_tunnel_status 9 ProbeInput.timeout
      { initState with last_check_time := some 5 }).1.last_check_time =
      some 5 ∧
    (check_tunnel_status 9 goodProbe initState).1.last_check_time =
      some 9 ∧
    get_status_text { initState with last_check_time := some 5 } =
      "✗ Disconnected" ++ "\nLast check: " ++ toString 5 :=
  ⟨(C10_last_check_frame 9 ProbeInput.timeout
      { initState with last_check_time := some 5 } 5).1 rfl,
   (C10_last_check_frame 9 goodProbe initState 5).2.1 (by decide),
   (C10_last_check_frame 9 ProbeInput.timeout
      { initState with last_check_time := some 5 } 5).2.2 rfl⟩

end TunnelMonitor
